import Mathlib

/-!
Shallow embedding of the session/connection coordination backend in
src/backend/server.py: the connection registry (ConnectionManager), the
session store operations (create/get/join/send_message) and the live-channel
message fan-out protocol (websocket_endpoint).

Mongo collections are modelled as lists of documents; find_one returns the
first document matching the given session_id, update_one rewrites the first
match.  Python truthiness of an optional string (None and "" are falsy) is
modelled by the predicate truthy.
-/

set_option autoImplicit false

namespace SignLang

/-- Client state of a websocket channel (fastapi.websockets.WebSocketState;
only the CONNECTED check at server.py:47 and server.py:57 matters). -/
inductive WSState where
  | connected
  | disconnected
deriving DecidableEq, Repr

/-- ConnectionManager.active_connections: a dict from user_id to its channel,
modelled as an association list (unique keys maintained by connect). -/
abbrev Registry := List (String × WSState)

/-- Dict lookup: first binding of the key, if any. -/
def lookupConn (r : Registry) (user_id : String) : Option WSState :=
  match r with
  | [] => none
  | (k, v) :: rest => if k = user_id then some v else lookupConn rest user_id

/-- Removal of every binding of the key (a Python dict has at most one). -/
def eraseConn (r : Registry) (user_id : String) : Registry :=
  r.filter (fun p => p.1 ≠ user_id)

/-- ConnectionManager.connect: accept the handshake, then
active_connections[user_id] = websocket, overwriting any prior binding. -/
def connect (r : Registry) (user_id : String) : Registry :=
  (user_id, WSState.connected) :: eraseConn r user_id

/-- ConnectionManager.disconnect: delete the binding if the key is present,
otherwise do nothing (server.py:40-42). -/
def disconnect (r : Registry) (user_id : String) : Registry :=
  if (lookupConn r user_id).isSome then eraseConn r user_id else r

/-- ConnectionManager.send_personal_message (server.py:44-48): returns the
performed network send as an event, or none when the identity is not
registered or its channel is not CONNECTED.  The payload type is a parameter
because Python passes both strings and dicts through this path. -/
def send_personal_message {α : Type} (r : Registry) (message : α) (user_id : String) :
    Option (String × α) :=
  match lookupConn r user_id with
  | some st => if st = WSState.connected then some (user_id, message) else none
  | none => none

/-- Python truthiness of an optional string: None and "" are falsy. -/
def truthy : Option String → Bool
  | some s => s != ""
  | none => false

/-- Embedded message document (class Message, server.py:94-100). -/
structure Message where
  session_id : String
  sender_id : String
  sender_role : String
  message_type : String
  content : String
  timestamp : Nat
deriving DecidableEq, Repr

/-- Session document (class InterviewSession, server.py:82-89). -/
structure InterviewSession where
  session_id : String
  candidate_id : Option String := none
  hr_id : Option String := none
  status : String := "waiting"
  sign_language : String := "ASL"
  created_at : Nat := 0
  messages : List Message := []
deriving DecidableEq, Repr

/-- User document (class User, server.py:71-76). -/
structure User where
  user_id : String
  name : String
  role : String
  session_id : Option String := none
  created_at : Nat := 0
deriving DecidableEq, Repr

/-- The interview_sessions collection. -/
abbrev SessionStore := List InterviewSession

/-- The users collection. -/
abbrev UserStore := List User

/-- db.interview_sessions.find_one with filter on session_id: first match. -/
def find_one (store : SessionStore) (session_id : String) : Option InterviewSession :=
  store.find? (fun s => s.session_id == session_id)

/-- update_one: rewrite the first document satisfying the filter, no-op when
none matches (matched_count 0 is not an error). -/
def update_one {α : Type} (p : α → Bool) (f : α → α) : List α → List α
  | [] => []
  | x :: xs => if p x then f x :: xs else x :: update_one p f xs

/-- POST /sessions (create_session, server.py:135-140): a fresh session record
with the given generated id, status "waiting" and no participants. -/
def create_session (new_id : String) (sign_language : String) (now : Nat) : InterviewSession :=
  { session_id := new_id, candidate_id := none, hr_id := none, status := "waiting",
    sign_language := sign_language, created_at := now, messages := [] }

/-- GET /sessions/{session_id} (get_session, server.py:142-147): 404 when the
session is absent, otherwise the stored record. -/
def get_session (store : SessionStore) (session_id : String) :
    Except String InterviewSession :=
  match find_one store session_id with
  | some s => Except.ok s
  | none => Except.error "Session not found"

/-- Response of join_session (server.py:179). -/
structure JoinResponse where
  message : String
  status : String
deriving DecidableEq, Repr

/-- Effect of one join on the session document itself (the $set built at
server.py:156-166 applied to the fetched session): the role slot is
overwritten and status is set to "active" exactly when the opposite slot of
the pre-update session is truthy; an unrecognized role leaves the document
unchanged (the empty $set aborts the request before any write). -/
def joinStep (s : InterviewSession) (op : String × String) : InterviewSession :=
  if op.2 = "candidate" then
    { s with candidate_id := some op.1,
             status := if truthy s.hr_id then "active" else s.status }
  else if op.2 = "hr" then
    { s with hr_id := some op.1,
             status := if truthy s.candidate_id then "active" else s.status }
  else s

/-- POST /sessions/{session_id}/join (join_session, server.py:149-179):
404 when the session is absent; for role "candidate" or "hr" the session's
first match is rewritten by joinStep, the user's session_id is overwritten,
and the response reports the status key of the update (defaulting to
"waiting"); any other role produces an empty $set, which MongoDB rejects, so
the request fails with no state change. -/
def join_session (store : SessionStore) (users : UserStore)
    (session_id user_id role : String) :
    Except String (SessionStore × UserStore × JoinResponse) :=
  match find_one store session_id with
  | none => Except.error "Session not found"
  | some session =>
    if role = "candidate" ∨ role = "hr" then
      let makeActive :=
        if role = "candidate" then truthy session.hr_id else truthy session.candidate_id
      let store1 := update_one (fun s => s.session_id == session_id)
        (fun s => joinStep s (user_id, role)) store
      let users1 := update_one (fun u => u.user_id == user_id)
        (fun u => { u with session_id := some session_id }) users
      Except.ok (store1, users1,
        { message := "Joined session successfully",
          status := if makeActive then "active" else "waiting" })
    else Except.error "empty update document"

/-- A sequence of joins applied to one session document, op = (user_id, role). -/
def applyJoins (s : InterviewSession) (ops : List (String × String)) : InterviewSession :=
  ops.foldl joinStep s

/-- Lifecycle invariant preserved by joins whose user identity is nonempty:
status is active or waiting, active exactly when both slots are truthy, and a
filled slot is never the empty string. -/
def StatusInv (s : InterviewSession) : Prop :=
  (s.status = "active" ∨ s.status = "waiting")
  ∧ (s.status = "active" ↔ (truthy s.candidate_id = true ∧ truthy s.hr_id = true))
  ∧ (s.candidate_id = none ∨ truthy s.candidate_id = true)
  ∧ (s.hr_id = none ∨ truthy s.hr_id = true)

/-- Delivery attempt for one participant slot in
ConnectionManager.send_to_session (server.py:54-58): the loop body sends only
when the slot is truthy, the participant is registered, and its channel is
CONNECTED. -/
def participantSend {α : Type} (r : Registry) (message : α) (pid : Option String) :
    List (String × α) :=
  match pid with
  | some p =>
    if p != "" then
      match lookupConn r p with
      | some st => if st = WSState.connected then [(p, message)] else []
      | none => []
    else []
  | none => []

/-- ConnectionManager.send_to_session (server.py:50-58): look the session up,
then iterate over [candidate_id, hr_id]; absent session means no iteration at
all.  Returns the performed sends in loop order. -/
def send_to_session {α : Type} (store : SessionStore) (r : Registry) (message : α)
    (session_id : String) : List (String × α) :=
  match find_one store session_id with
  | some session =>
      participantSend r message session.candidate_id ++ participantSend r message session.hr_id
  | none => []

/-- Modelled from the spec, section 4.2: participants_of resolves the set of
non-null participant identities of a session record. -/
def resolved_participants (session : InterviewSession) : List String :=
  [session.candidate_id, session.hr_id].filterMap id

/-- Modelled from the spec, section 4.2: participants_of looks the session
record up and returns the non-null participant identities; an absent session
resolves to the empty set. -/
def participants_of (store : SessionStore) (session_id : String) : List String :=
  match find_one store session_id with
  | some session => resolved_participants session
  | none => []

/-- Modelled from the spec, sections 4.2 and 4.3: resolve the participants of
the session via the Session Router and attempt a Connection Registry send to
each resolved identity; an absent session resolves to no participants. -/
def registry_fanout {α : Type} (store : SessionStore) (r : Registry) (message : α)
    (session_id : String) : List (String × α) :=
  match find_one store session_id with
  | some session =>
      (resolved_participants session).filterMap (fun p => send_personal_message r message p)
  | none => []

/-- Acknowledgment body of POST /sessions/{session_id}/messages. -/
structure Ack where
  message : String
deriving DecidableEq, Repr

/-- The $push of send_message (server.py:185-188): append the message to the
first matching session's embedded list; no match, no write, no error. -/
def push_message (store : SessionStore) (session_id : String) (m : Message) : SessionStore :=
  update_one (fun s => s.session_id == session_id)
    (fun s => { s with messages := s.messages ++ [m] }) store

/-- POST /sessions/{session_id}/messages (send_message, server.py:181-193):
push the message into the session document, then fan out over the live
channels reading the just-updated store, and acknowledge unconditionally. -/
def send_message (store : SessionStore) (conns : Registry) (session_id : String)
    (m : Message) : SessionStore × List (String × Message) × Ack :=
  let store1 := push_message store session_id m
  let sends := send_to_session store1 conns m session_id
  (store1, sends, { message := "Message sent successfully" })

/-- Inbound live-channel envelope: the parsed JSON object's "type" and
"session_id" keys (message_data.get, server.py:205-209); other keys are
carried opaquely and forwarded verbatim on fan-out. -/
structure Envelope where
  tag : Option String := none
  session_id : Option String := none
  rest : List (String × String) := []
deriving DecidableEq, Repr

/-- The pong control reply (server.py:206). -/
def pong : Envelope := { tag := some "pong" }

/-- One observable output of the websocket loop body: a send_text on the
channel itself, or a send_to_session delivery to a target identity. -/
inductive WireOut where
  | reply (payload : Envelope)
  | deliver (target : String) (payload : Envelope)
deriving DecidableEq, Repr

/-- Body of the websocket receive loop for one successfully parsed envelope
(server.py:204-211): "ping" answers pong on the same channel; "message" with
a truthy session_id fans out the whole envelope via send_to_session; every
other envelope falls through with no output. -/
def handle_frame (store : SessionStore) (conns : Registry) (env : Envelope) :
    List WireOut :=
  if env.tag = some "ping" then [WireOut.reply pong]
  else if env.tag = some "message" then
    match env.session_id with
    | some sid =>
      if sid != "" then
        (send_to_session store conns env sid).map (fun p => WireOut.deliver p.1 p.2)
      else []
    | none => []
  else []

/-- One inbound text frame, classified by how json.loads and the subsequent
message_data.get calls treat it: malformed is text on which json.loads raises
JSONDecodeError; nonObject is valid JSON whose value is not an object (null,
a number, a string, a boolean or an array), on which message_data.get("type")
at server.py:205 raises AttributeError; valid is a JSON object, parsed to an
envelope. -/
inductive Frame where
  | malformed
  | nonObject
  | valid (env : Envelope)
deriving DecidableEq, Repr

/-- The receive loop (server.py:200-211) over the inbound frames of one
channel.  The boolean is true when the loop consumed every frame and then saw
the client disconnect (receive_text raises WebSocketDisconnect, caught at
server.py:213); it is false when a frame raised an exception other than
WebSocketDisconnect — JSONDecodeError from json.loads on a malformed frame,
or AttributeError from message_data.get on a non-object JSON frame — which
terminates the loop uncaught, leaving the remaining frames unprocessed. -/
def ws_loop (store : SessionStore) (conns : Registry) (frames : List Frame) :
    List WireOut × Bool :=
  match frames with
  | [] => ([], true)
  | Frame.malformed :: _ => ([], false)
  | Frame.nonObject :: _ => ([], false)
  | Frame.valid env :: restF =>
    let outs := handle_frame store conns env
    let res := ws_loop store conns restF
    (outs ++ res.1, res.2)

/-- The websocket endpoint (server.py:196-214): register the channel, run the
receive loop, and remove the registry entry only when the loop ended in the
WebSocketDisconnect handler; a loop terminated by any other exception skips
manager.disconnect.  Returns the final registry and the outputs. -/
def websocket_endpoint (store : SessionStore) (conns : Registry) (user_id : String)
    (frames : List Frame) : Registry × List WireOut :=
  let conns1 := connect conns user_id
  let res := ws_loop store conns1 frames
  (if res.2 then disconnect conns1 user_id else conns1, res.1)

/-! Helper lemmas shared by the claim theorems. -/

theorem lookupConn_eraseConn (r : Registry) (u : String) :
    lookupConn (eraseConn r u) u = none := by
  induction r with
  | nil => rfl
  | cons p rest ih =>
    by_cases h : p.1 = u
    · simpa [eraseConn, List.filter, h] using ih
    · simpa [eraseConn, List.filter, h, lookupConn] using ih

theorem update_one_no_match {α : Type} (p : α → Bool) (f : α → α) (l : List α)
    (h : ∀ x ∈ l, p x = false) : update_one p f l = l := by
  induction l with
  | nil => rfl
  | cons x xs ih =>
    have hx : p x = false := h x (List.mem_cons_self x xs)
    simp [update_one, hx, ih (fun y hy => h y (List.mem_cons_of_mem x hy))]

theorem find_one_update_one (store : SessionStore) (sid : String)
    (f : InterviewSession → InterviewSession)
    (hf : ∀ s, (f s).session_id = s.session_id)
    (s : InterviewSession) (h : find_one store sid = some s) :
    find_one (update_one (fun x => x.session_id == sid) f store) sid = some (f s) := by
  induction store with
  | nil => simp [find_one, List.find?] at h
  | cons x xs ih =>
    by_cases hx : x.session_id == sid
    · have hs : x = s := by
        simpa [find_one, List.find?, hx] using h
      subst hs
      simp [find_one, update_one, hx, List.find?, hf x]
    · have hx' : (x.session_id == sid) = false := by
        simpa using hx
      have h2 : find_one xs sid = some s := by
        simpa [find_one, List.find?, hx'] using h
      have := ih h2
      simpa [find_one, update_one, hx', List.find?] using this

theorem send_to_session_of_none {α : Type} (store : SessionStore) (r : Registry)
    (m : α) (sid : String) (h : find_one store sid = none) :
    send_to_session store r m sid = [] := by
  simp [send_to_session, h]

theorem registry_fanout_of_none {α : Type} (store : SessionStore) (r : Registry)
    (m : α) (sid : String) (h : find_one store sid = none) :
    registry_fanout store r m sid = [] := by
  simp [registry_fanout, h]

theorem participantSend_eq_personal {α : Type} (r : Registry) (m : α)
    (h0 : lookupConn r "" = none) (pid : Option String) :
    participantSend r m pid = pid.elim [] (fun p => (send_personal_message r m p).toList) := by
  cases pid with
  | none => rfl
  | some p =>
    by_cases hp : p = ""
    · subst hp
      simp [participantSend, send_personal_message, h0]
    · have hp' : (p != "") = true := by simpa using hp
      cases hl : lookupConn r p with
      | none => simp [participantSend, send_personal_message, hp', hl]
      | some st =>
        cases st <;> simp [participantSend, send_personal_message, hp', hl]

theorem filterMap_single {α β : Type} (f : α → Option β) (a : α) :
    List.filterMap f [a] = (f a).toList := by
  cases ha : f a <;> simp [List.filterMap_cons, ha]

theorem filterMap_pair {α β : Type} (f : α → Option β) (a b : α) :
    List.filterMap f [a, b] = (f a).toList ++ (f b).toList := by
  cases ha : f a <;> cases hb : f b <;> simp [List.filterMap_cons, ha, hb]

theorem send_to_session_eq_registry_fanout {α : Type} (store : SessionStore)
    (r : Registry) (m : α) (sid : String) (h0 : lookupConn r "" = none) :
    send_to_session store r m sid = registry_fanout store r m sid := by
  cases hf : find_one store sid with
  | none => simp [send_to_session, registry_fanout, hf]
  | some session =>
    simp only [send_to_session, registry_fanout, hf]
    rw [participantSend_eq_personal r m h0 session.candidate_id,
        participantSend_eq_personal r m h0 session.hr_id]
    cases hc : session.candidate_id <;> cases hh : session.hr_id <;>
      simp [resolved_participants, hc, hh, filterMap_pair, filterMap_single]

theorem joinStep_session_id (s : InterviewSession) (op : String × String) :
    (joinStep s op).session_id = s.session_id := by
  by_cases h1 : op.2 = "candidate" <;> by_cases h2 : op.2 = "hr" <;>
    simp [joinStep, h1, h2]

theorem statusInv_create (sid lang : String) (now : Nat) :
    StatusInv (create_session sid lang now) := by
  refine ⟨Or.inr rfl, ?_, Or.inl rfl, Or.inl rfl⟩
  constructor
  · intro h
    exact absurd h (by simp [create_session])
  · rintro ⟨hc, -⟩
    simp [create_session, truthy] at hc

theorem truthy_ne_none (o : Option String) (h : truthy o = true) : o ≠ none := by
  cases o with
  | none => simp [truthy] at h
  | some s => simp

theorem statusInv_joinStep (s : InterviewSession) (op : String × String)
    (hop : op.1 ≠ "") (hs : StatusInv s) : StatusInv (joinStep s op) := by
  obtain ⟨h01, h02, h03, h04⟩ := hs
  have htr : truthy (some op.1) = true := by simpa [truthy] using hop
  by_cases hc : op.2 = "candidate"
  · by_cases hh : truthy s.hr_id = true
    · refine ⟨Or.inl ?_, ?_, Or.inr ?_, Or.inr ?_⟩ <;>
        simp [joinStep, hc, hh, htr]
    · have hhn : s.hr_id = none := by
        rcases h04 with h | h
        · exact h
        · exact absurd h hh
      have hw : s.status ≠ "active" := by
        intro ha
        exact hh (h02.mp ha).2
      refine ⟨?_, ?_, Or.inr ?_, Or.inl ?_⟩
      · rcases h01 with h | h
        · exact absurd h hw
        · exact Or.inr (by simp [joinStep, hc, hh, h])
      · simp [joinStep, hc, hh, hhn, truthy, hw]
      · simp [joinStep, hc, hh, htr]
      · simp [joinStep, hc, hh, hhn]
  · by_cases hr2 : op.2 = "hr"
    · by_cases hh : truthy s.candidate_id = true
      · refine ⟨Or.inl ?_, ?_, Or.inr ?_, Or.inr ?_⟩ <;>
          simp [joinStep, hc, hr2, hh, htr]
      · have hhn : s.candidate_id = none := by
          rcases h03 with h | h
          · exact h
          · exact absurd h hh
        have hw : s.status ≠ "active" := by
          intro ha
          exact hh (h02.mp ha).1
        refine ⟨?_, ?_, Or.inl ?_, Or.inr ?_⟩
        · rcases h01 with h | h
          · exact absurd h hw
          · exact Or.inr (by simp [joinStep, hc, hr2, hh, h])
        · simp [joinStep, hc, hr2, hh, hhn, truthy, hw]
        · simp [joinStep, hc, hr2, hhn]
        · simp [joinStep, hc, hr2, htr]
    · have : joinStep s op = s := by simp [joinStep, hc, hr2]
      rw [this]
      exact ⟨h01, h02, h03, h04⟩

theorem statusInv_applyJoins (ops : List (String × String)) :
    ∀ s, StatusInv s → (∀ op ∈ ops, op.1 ≠ "") → StatusInv (applyJoins s ops) := by
  induction ops with
  | nil => intro s hs _; exact hs
  | cons op restO ih =>
    intro s hs hops
    have h1 := statusInv_joinStep s op (hops op (List.mem_cons_self _ _)) hs
    exact ih (joinStep s op) h1 (fun o ho => hops o (List.mem_cons_of_mem _ ho))

theorem join_session_ok (store : SessionStore) (users : UserStore)
    (sid uid role : String) (s : InterviewSession)
    (hfind : find_one store sid = some s) (hrole : role = "candidate" ∨ role = "hr") :
    join_session store users sid uid role =
      Except.ok
        (update_one (fun x => x.session_id == sid) (fun x => joinStep x (uid, role)) store,
         update_one (fun u => u.user_id == uid) (fun u => { u with session_id := some sid }) users,
         { message := "Joined session successfully",
           status := if (if role = "candidate" then truthy s.hr_id else truthy s.candidate_id)
                     then "active" else "waiting" })
    ∧ find_one (update_one (fun x => x.session_id == sid) (fun x => joinStep x (uid, role)) store)
        sid = some (joinStep s (uid, role)) := by
  constructor
  · rcases hrole with h | h <;> subst h <;> simp [join_session, hfind, joinStep]
  · exact find_one_update_one store sid _ (fun x => joinStep_session_id x (uid, role)) s hfind

/-! Claim theorems. -/

/-- C1 counterexample: the claim as stated is false on the code.  Joining a
fresh session with the empty-string user identity (a legal value of the
user_id query parameter) as candidate, then joining "u2" as hr, leaves both
participant identities non-null while the status is still "waiting", because
join_session tests Python truthiness of the stored id and "" is falsy. -/
theorem join_status_claim_false_at_empty_id :
    (applyJoins (create_session "s1" "ASL" 0) [("", "candidate"), ("u2", "hr")]).candidate_id
        = some ""
    ∧ (applyJoins (create_session "s1" "ASL" 0) [("", "candidate"), ("u2", "hr")]).hr_id
        = some "u2"
    ∧ (applyJoins (create_session "s1" "ASL" 0) [("", "candidate"), ("u2", "hr")]).status
        = "waiting" := by
  refine ⟨rfl, rfl, rfl⟩

/-- C1 (amended): for every session created by the core and every sequence of
join operations whose user identities are nonempty, the session's status is
"active" exactly when both the candidate identity and the interviewer
identity are non-null, and the status is always "active" or "waiting" — no
core operation ever sets it to "completed". -/
theorem join_status_invariant (sid lang : String) (now : Nat)
    (ops : List (String × String)) (hops : ∀ op ∈ ops, op.1 ≠ "")
    (s : InterviewSession) (hs : s = applyJoins (create_session sid lang now) ops) :
    (s.status = "active" ↔ (s.candidate_id ≠ none ∧ s.hr_id ≠ none))
    ∧ (s.status = "active" ∨ s.status = "waiting") := by
  subst hs
  obtain ⟨h01, h02, h03, h04⟩ :=
    statusInv_applyJoins ops (create_session sid lang now) (statusInv_create sid lang now) hops
  refine ⟨?_, h01⟩
  constructor
  · intro ha
    obtain ⟨hc1, hh1⟩ := h02.mp ha
    exact ⟨truthy_ne_none _ hc1, truthy_ne_none _ hh1⟩
  · rintro ⟨hc1, hh1⟩
    apply h02.mpr
    constructor
    · rcases h03 with h | h
      · exact absurd h hc1
      · exact h
    · rcases h04 with h | h
      · exact absurd h hh1
      · exact h

/-- C1 witness: the amended invariant evaluated on a concrete join sequence
(candidate "u1", then hr "u2") ending in an active session. -/
theorem join_status_invariant_witness :
    (∀ op ∈ [("u1", "candidate"), ("u2", "hr")], op.1 ≠ "")
    ∧ (((applyJoins (create_session "s1" "ASL" 0) [("u1", "candidate"), ("u2", "hr")]).status
          = "active"
        ↔ ((applyJoins (create_session "s1" "ASL" 0)
              [("u1", "candidate"), ("u2", "hr")]).candidate_id ≠ none
          ∧ (applyJoins (create_session "s1" "ASL" 0)
              [("u1", "candidate"), ("u2", "hr")]).hr_id ≠ none))
      ∧ ((applyJoins (create_session "s1" "ASL" 0)
            [("u1", "candidate"), ("u2", "hr")]).status = "active"
        ∨ (applyJoins (create_session "s1" "ASL" 0)
            [("u1", "candidate"), ("u2", "hr")]).status = "waiting")) :=
  ⟨by decide,
   join_status_invariant "s1" "ASL" 0 [("u1", "candidate"), ("u2", "hr")] (by decide) _ rfl⟩

theorem find_one_fold_push (msgs : List Message) :
    ∀ (store : SessionStore) (conns : Registry) (sid : String) (s : InterviewSession),
      find_one store sid = some s →
      find_one (msgs.foldl (fun st m => (send_message st conns sid m).1) store) sid
        = some { s with messages := s.messages ++ msgs } := by
  induction msgs with
  | nil =>
    intro store conns sid s h
    simpa using h
  | cons m restM ih =>
    intro store conns sid s h
    have h1 : find_one (push_message store sid m) sid
        = some { s with messages := s.messages ++ [m] } :=
      find_one_update_one store sid (fun x => { x with messages := x.messages ++ [m] })
        (fun x => rfl) s h
    have h2 := ih (push_message store sid m) conns sid _ h1
    simpa [List.append_assoc] using h2

/-- C2: every message appended to an existing session through
POST /sessions/{id}/messages is returned by a subsequent GET /sessions/{id}
with identical fields (in particular content, sender_id, message_type), and
the session's message sequence after any run of appends is exactly the old
sequence followed by the appended messages in append order — nothing is
reordered or removed. -/
theorem send_message_round_trip (store : SessionStore) (conns : Registry)
    (sid : String) (s : InterviewSession) (msgs : List Message)
    (hfind : find_one store sid = some s) :
    get_session (msgs.foldl (fun st m => (send_message st conns sid m).1) store) sid
      = Except.ok { s with messages := s.messages ++ msgs } := by
  simp [get_session, find_one_fold_push msgs store conns sid s hfind]

/-- C2 witness: appending two concrete messages to a one-session store and
reading the session back yields them in append order. -/
theorem send_message_round_trip_witness :
    find_one [create_session "s1" "ASL" 0] "s1" = some (create_session "s1" "ASL" 0)
    ∧ get_session
        ([⟨"s1", "u1", "candidate", "sign_to_text", "hello", 1⟩,
          ⟨"s1", "u2", "hr", "text_to_sign", "hi", 2⟩].foldl
          (fun st m => (send_message st [] "s1" m).1) [create_session "s1" "ASL" 0]) "s1"
      = Except.ok { create_session "s1" "ASL" 0 with
          messages := (create_session "s1" "ASL" 0).messages ++
            [⟨"s1", "u1", "candidate", "sign_to_text", "hello", 1⟩,
             ⟨"s1", "u2", "hr", "text_to_sign", "hi", 2⟩] } :=
  ⟨by decide,
   send_message_round_trip [create_session "s1" "ASL" 0] [] "s1" (create_session "s1" "ASL" 0)
     [⟨"s1", "u1", "candidate", "sign_to_text", "hello", 1⟩,
      ⟨"s1", "u2", "hr", "text_to_sign", "hi", 2⟩] (by decide)⟩

/-- C3: an inbound live-channel envelope tagged "message" that carries a
session_id is fanned out by resolving the session's non-null participants and
attempting a registry send (delivered only to registered, connected channels,
the sender not excluded) to each of them; an envelope without a session_id
produces no delivery.  The hypotheses record that the empty string is never a
registered identity nor a stored session id (identities are server-generated
UUIDs and the websocket path parameter is nonempty). -/
theorem handle_message_fanout (store : SessionStore) (conns : Registry) (env : Envelope)
    (htag : env.tag = some "message")
    (h0 : lookupConn conns "" = none)
    (hno : find_one store "" = none) :
    handle_frame store conns env =
      match env.session_id with
      | some sid => (registry_fanout store conns env sid).map (fun p => WireOut.deliver p.1 p.2)
      | none => [] := by
  have hping : ¬ env.tag = some "ping" := by
    rw [htag]
    simp
  cases hsid : env.session_id with
  | none => simp [handle_frame, htag, hping, hsid]
  | some sid =>
    by_cases hz : sid = ""
    · subst hz
      simp [handle_frame, htag, hping, hsid, registry_fanout_of_none _ _ _ _ hno]
    · have hz2 : (sid != "") = true := by simpa using hz
      simp [handle_frame, htag, hping, hsid, hz2,
            send_to_session_eq_registry_fanout store conns env sid h0]

/-- C3 witness: a "message" envelope for a session with two connected
participants is delivered to both of them, sender included. -/
theorem handle_message_fanout_witness :
    ({ tag := some "message", session_id := some "s1" } : Envelope).tag = some "message"
    ∧ lookupConn [("u1", WSState.connected), ("u2", WSState.connected)] "" = none
    ∧ find_one [{ create_session "s1" "ASL" 0 with
          candidate_id := some "u1", hr_id := some "u2", status := "active" }] "" = none
    ∧ handle_frame
        [{ create_session "s1" "ASL" 0 with
            candidate_id := some "u1", hr_id := some "u2", status := "active" }]
        [("u1", WSState.connected), ("u2", WSState.connected)]
        { tag := some "message", session_id := some "s1" } =
      match ({ tag := some "message", session_id := some "s1" } : Envelope).session_id with
      | some sid =>
        (registry_fanout
          [{ create_session "s1" "ASL" 0 with
              candidate_id := some "u1", hr_id := some "u2", status := "active" }]
          [("u1", WSState.connected), ("u2", WSState.connected)]
          ({ tag := some "message", session_id := some "s1" } : Envelope) sid).map
            (fun p => WireOut.deliver p.1 p.2)
      | none => [] :=
  ⟨by decide, by decide, by decide,
   handle_message_fanout
     [{ create_session "s1" "ASL" 0 with
         candidate_id := some "u1", hr_id := some "u2", status := "active" }]
     [("u1", WSState.connected), ("u2", WSState.connected)]
     { tag := some "message", session_id := some "s1" } (by decide) (by decide) (by decide)⟩

/-- C4 evaluated at the failing input: a channel for "u1" whose single
inbound frame is not valid JSON.  json.loads raises JSONDecodeError, which
the except WebSocketDisconnect clause does not catch, so manager.disconnect
is skipped and the registry keeps the stale entry for "u1"; by contrast, a
channel that ends with a client disconnect is cleaned up. -/
theorem stale_entry_after_malformed_frame :
    websocket_endpoint [] [] "u1" [Frame.malformed] = ([("u1", WSState.connected)], [])
    ∧ lookupConn (websocket_endpoint [] [] "u1" [Frame.malformed]).1 "u1"
        = some WSState.connected
    ∧ websocket_endpoint [] [] "u1" [] = ([], []) := by
  refine ⟨rfl, rfl, rfl⟩

/-- C5 counterexample: malformed inbound frames are not swallowed.  A frame
that is not valid JSON (JSONDecodeError), and equally a frame that parses to
a non-object JSON value such as null or [1,2] (AttributeError at
message_data.get), terminates the receive loop with an uncaught exception
(boolean false) and a subsequent ping frame on the same channel is never
processed, whereas the ping alone would have been answered with pong. -/
theorem malformed_frame_kills_channel :
    ws_loop [] [] [Frame.malformed, Frame.valid { tag := some "ping" }] = ([], false)
    ∧ ws_loop [] [] [Frame.nonObject, Frame.valid { tag := some "ping" }] = ([], false)
    ∧ ws_loop [] [] [Frame.valid { tag := some "ping" }] = ([WireOut.reply pong], true) := by
  refine ⟨rfl, rfl, rfl⟩

theorem handle_frame_nil (store : SessionStore) (conns : Registry) (env : Envelope)
    (h1 : env.tag ≠ some "ping")
    (h2 : env.tag = some "message" → (env.session_id = none ∨ env.session_id = some "")) :
    handle_frame store conns env = [] := by
  by_cases hm : env.tag = some "message"
  · rcases h2 hm with h | h <;> simp [handle_frame, h1, hm, h]
  · simp [handle_frame, h1, hm]

/-- C5 (amended): a frame that parses as a JSON object never terminates the
channel — the loop keeps processing the remaining frames — and when its
discriminator is neither "ping" nor "message", or it is a "message" without
a truthy session_id, it is swallowed with no output at all; a frame that is
not valid JSON, or that parses to a non-object JSON value, raises an
uncaught error that terminates the channel, leaving the remaining frames
unprocessed. -/
theorem swallowed_envelope_no_response (store : SessionStore) (conns : Registry)
    (env : Envelope) (frames : List Frame) :
    (ws_loop store conns (Frame.valid env :: frames)).2 = (ws_loop store conns frames).2
    ∧ ((env.tag ≠ some "ping"
        ∧ (env.tag = some "message" → (env.session_id = none ∨ env.session_id = some ""))) →
        ws_loop store conns (Frame.valid env :: frames) = ws_loop store conns frames)
    ∧ ws_loop store conns (Frame.malformed :: frames) = ([], false)
    ∧ ws_loop store conns (Frame.nonObject :: frames) = ([], false) := by
  refine ⟨?_, ?_, rfl, rfl⟩
  · simp [ws_loop]
  · rintro ⟨h1, h2⟩
    simp [ws_loop, handle_frame_nil store conns env h1 h2]

/-- C5 witness: an envelope with the unknown discriminator "typing" followed
by a ping frame — the unknown envelope is swallowed and the ping is still
answered. -/
theorem swallowed_envelope_no_response_witness :
    ((({ tag := some "typing" } : Envelope).tag ≠ some "ping")
      ∧ (({ tag := some "typing" } : Envelope).tag = some "message" →
          (({ tag := some "typing" } : Envelope).session_id = none
            ∨ ({ tag := some "typing" } : Envelope).session_id = some "")))
    ∧ ((ws_loop [] [] (Frame.valid { tag := some "typing" }
          :: [Frame.valid { tag := some "ping" }])).2
        = (ws_loop [] [] [Frame.valid { tag := some "ping" }]).2
      ∧ ((({ tag := some "typing" } : Envelope).tag ≠ some "ping"
          ∧ (({ tag := some "typing" } : Envelope).tag = some "message" →
              (({ tag := some "typing" } : Envelope).session_id = none
                ∨ ({ tag := some "typing" } : Envelope).session_id = some ""))) →
          ws_loop [] [] (Frame.valid { tag := some "typing" }
              :: [Frame.valid { tag := some "ping" }])
            = ws_loop [] [] [Frame.valid { tag := some "ping" }])
      ∧ ws_loop [] [] (Frame.malformed :: [Frame.valid { tag := some "ping" }]) = ([], false)
      ∧ ws_loop [] [] (Frame.nonObject :: [Frame.valid { tag := some "ping" }]) = ([], false)) :=
  ⟨⟨by decide, by decide⟩,
   swallowed_envelope_no_response [] [] { tag := some "typing" }
     [Frame.valid { tag := some "ping" }]⟩

/-- C6: for a session identity with no stored session, participant
resolution returns the empty set, and both the endpoint's fan-out loop and
its spec-level description attempt no send at all — the fan-out is a total
no-op and nothing is signalled to the caller. -/
theorem fanout_vanished_session {α : Type} (store : SessionStore) (conns : Registry)
    (m : α) (sid : String) (h : find_one store sid = none) :
    participants_of store sid = []
    ∧ send_to_session store conns m sid = []
    ∧ registry_fanout store conns m sid = [] := by
  refine ⟨?_, send_to_session_of_none _ _ _ _ h, registry_fanout_of_none _ _ _ _ h⟩
  simp [participants_of, h]

/-- C6 witness: fan-out of a concrete envelope over a store that does not
contain the addressed session. -/
theorem fanout_vanished_session_witness :
    find_one [create_session "s1" "ASL" 0] "missing" = none
    ∧ (participants_of [create_session "s1" "ASL" 0] "missing" = []
      ∧ send_to_session [create_session "s1" "ASL" 0] [("u1", WSState.connected)]
          ({ tag := some "message", session_id := some "missing" } : Envelope) "missing" = []
      ∧ registry_fanout [create_session "s1" "ASL" 0] [("u1", WSState.connected)]
          ({ tag := some "message", session_id := some "missing" } : Envelope) "missing" = []) :=
  ⟨by decide,
   fanout_vanished_session [create_session "s1" "ASL" 0] [("u1", WSState.connected)]
     ({ tag := some "message", session_id := some "missing" } : Envelope) "missing" (by decide)⟩

/-- C7: a registry send to an identity that is not registered, or whose
channel is not in the CONNECTED state, performs no network send at all — it
returns no event and, being an ordinary return, cannot fail the caller's
request. -/
theorem send_dropped_when_unregistered {α : Type} (conns : Registry) (m : α)
    (uid : String)
    (h : lookupConn conns uid = none ∨ lookupConn conns uid = some WSState.disconnected) :
    send_personal_message conns m uid = none := by
  rcases h with h | h <;> simp [send_personal_message, h]

/-- C7 witness: sends to a never-registered identity and to an identity whose
channel has left the CONNECTED state are both dropped. -/
theorem send_dropped_when_unregistered_witness :
    (lookupConn [("u2", WSState.disconnected)] "u1" = none
      ∨ lookupConn [("u2", WSState.disconnected)] "u1" = some WSState.disconnected)
    ∧ send_personal_message [("u2", WSState.disconnected)] "payload" "u1" = none
    ∧ (lookupConn [("u2", WSState.disconnected)] "u2" = none
      ∨ lookupConn [("u2", WSState.disconnected)] "u2" = some WSState.disconnected)
    ∧ send_personal_message [("u2", WSState.disconnected)] "payload" "u2" = none :=
  ⟨Or.inl (by decide),
   send_dropped_when_unregistered [("u2", WSState.disconnected)] "payload" "u1"
     (Or.inl (by decide)),
   Or.inr (by decide),
   send_dropped_when_unregistered [("u2", WSState.disconnected)] "payload" "u2"
     (Or.inr (by decide))⟩

/-- C8: a "ping" envelope is answered with exactly one pong reply on the same
channel and nothing else, and the handling reads neither the session store
nor the registry — the output is the same for every store and every
registry. -/
theorem ping_pong_reply (store store2 : SessionStore) (conns conns2 : Registry)
    (env : Envelope) (h : env.tag = some "ping") :
    handle_frame store conns env = [WireOut.reply pong]
    ∧ handle_frame store conns env = handle_frame store2 conns2 env := by
  constructor <;> simp [handle_frame, h]

/-- C8 witness: the literal ping envelope against a nonempty store and
registry, compared with the empty ones. -/
theorem ping_pong_reply_witness :
    ({ tag := some "ping" } : Envelope).tag = some "ping"
    ∧ (handle_frame [create_session "s1" "ASL" 0] [("u1", WSState.connected)]
          { tag := some "ping" } = [WireOut.reply pong]
      ∧ handle_frame [create_session "s1" "ASL" 0] [("u1", WSState.connected)]
          { tag := some "ping" } = handle_frame [] [] { tag := some "ping" }) :=
  ⟨by decide,
   ping_pong_reply [create_session "s1" "ASL" 0] [] [("u1", WSState.connected)] []
     { tag := some "ping" } (by decide)⟩

/-- C9: unregistering an identity twice leaves the registry exactly as
unregistering it once, and unregistering an absent identity changes
nothing — it is a no-op, not an error. -/
theorem disconnect_idempotent (conns : Registry) (uid : String) :
    disconnect (disconnect conns uid) uid = disconnect conns uid
    ∧ (lookupConn conns uid = none → disconnect conns uid = conns) := by
  constructor
  · by_cases h : (lookupConn conns uid).isSome
    · simp [disconnect, h, lookupConn_eraseConn]
    · simp [disconnect, h]
  · intro h
    simp [disconnect, h]

/-- C9 witness: double disconnect of a registered identity and disconnect of
an absent one, on a concrete registry. -/
theorem disconnect_idempotent_witness :
    (disconnect (disconnect [("u1", WSState.connected)] "u1") "u1"
        = disconnect [("u1", WSState.connected)] "u1"
      ∧ (lookupConn [("u1", WSState.connected)] "u1" = none →
          disconnect [("u1", WSState.connected)] "u1" = [("u1", WSState.connected)]))
    ∧ (disconnect (disconnect [("u1", WSState.connected)] "u9") "u9"
        = disconnect [("u1", WSState.connected)] "u9"
      ∧ (lookupConn [("u1", WSState.connected)] "u9" = none →
          disconnect [("u1", WSState.connected)] "u9" = [("u1", WSState.connected)])) :=
  ⟨disconnect_idempotent [("u1", WSState.connected)] "u1",
   disconnect_idempotent [("u1", WSState.connected)] "u9"⟩

/-- C10: posting a message to a session identity with no stored session is
not a not-found error — the store is left byte-for-byte unchanged, no
fan-out send is attempted, and the acknowledgment is the very same success
body returned for an existing session (it is unconditional). -/
theorem send_message_missing_session (store : SessionStore) (conns : Registry)
    (sid : String) (m : Message) (h : find_one store sid = none) :
    send_message store conns sid m = (store, [], { message := "Message sent successfully" })
    ∧ ∀ (store2 : SessionStore) (sid2 : String),
        (send_message store2 conns sid2 m).2.2 = { message := "Message sent successfully" } := by
  constructor
  · have hall : ∀ s ∈ store, (s.session_id == sid) = false := by
      intro s hs
      simpa using List.find?_eq_none.mp h s hs
    have hpush : push_message store sid m = store := update_one_no_match _ _ _ hall
    simp [send_message, hpush, send_to_session_of_none _ _ _ _ h]
  · intro store2 sid2
    simp [send_message]

/-- C10 witness: posting a concrete message to a missing session id on a
one-session store. -/
theorem send_message_missing_session_witness :
    find_one [create_session "s1" "ASL" 0] "missing" = none
    ∧ (send_message [create_session "s1" "ASL" 0] [("u1", WSState.connected)] "missing"
          ⟨"missing", "u1", "candidate", "sign_to_text", "hello", 1⟩
        = ([create_session "s1" "ASL" 0], [], { message := "Message sent successfully" })
      ∧ ∀ (store2 : SessionStore) (sid2 : String),
          (send_message store2 [("u1", WSState.connected)] sid2
              ⟨"missing", "u1", "candidate", "sign_to_text", "hello", 1⟩).2.2
            = { message := "Message sent successfully" }) :=
  ⟨by decide,
   send_message_missing_session [create_session "s1" "ASL" 0] [("u1", WSState.connected)]
     "missing" ⟨"missing", "u1", "candidate", "sign_to_text", "hello", 1⟩ (by decide)⟩

end SignLang
